import Mathlib

/-!
Shallow embedding of `readindicators.py` (DHIS2 indicator metadata scraper).

Text is modelled as `List Char` (`Str`); Python's arbitrary-precision ints as
`Nat` (all numbers handled by this program are non-negative); Python runtime
exceptions as an explicit `PyError` in `Except`.  Registry HTTP lookups are the
I/O boundary of the program and are modelled as read-only lookup functions
(`Registry`), exactly the interface the code consumes.

Recursive text scanners take an explicit fuel argument so that all definitions
reduce by kernel computation; every scanner consumes at least one character of
its input per step, so the `input.length + 1` fuel supplied by the wrappers is
never exhausted.
-/

set_option maxRecDepth 10000

abbrev Str := List Char

/-- Python runtime exceptions raised by the embedded code. -/
inductive PyError where
  | nameError (msg : String)
  | typeError (msg : String)
  | attributeError (msg : String)
  | valueError (msg : String)
deriving DecidableEq, Repr

deriving instance DecidableEq for Except

/-- `'{'` (written via its code point to keep braces out of literals). -/
def lbrace : Char := Char.ofNat 123

/-- `'}'`. -/
def rbrace : Char := Char.ofNat 125

/-- First-match association-list lookup (Python `dict` read). -/
def lookupA {β : Type} : List (Str × β) → Str → Option β
  | [], _ => none
  | (k, v) :: rest, key => if k = key then some v else lookupA rest key

/-- Python `str.isdigit()`: non-empty and all characters are digits. -/
def pyIsDigit (s : Str) : Bool := !s.isEmpty && s.all Char.isDigit

/-- `int(...)` on an all-digit string. -/
def digitsToNat (s : Str) : Nat := s.foldl (fun n c => 10 * n + (c.toNat - 48)) 0

/-- `str(...)` of a non-negative int. -/
def natStr (n : Nat) : Str := (Nat.repr n).toList

/-- Python `\s` for the ASCII range (space, tab, LF, CR, VT, FF). -/
def isPySpace (c : Char) : Bool :=
  c = ' ' || c = '\t' || c = '\n' || c = '\r' || c = Char.ofNat 11 || c = Char.ofNat 12

/-- `re.sub(pat, repl, s)` for a literal (metacharacter-free) pattern:
replaces every non-overlapping occurrence left to right; the replacement text
is not rescanned.  `subAllF` is the fuelled worker (fuel ≥ `s.length + 1`
suffices: each step consumes at least one character of `s`). -/
def subAllF (pat repl : Str) : Nat → Str → Str
  | 0, s => s
  | fuel + 1, s =>
    match s with
    | [] => []
    | c :: rest =>
      if pat ≠ [] ∧ pat.isPrefixOf s then repl ++ subAllF pat repl fuel (s.drop pat.length)
      else c :: subAllF pat repl fuel rest

/-- `re.sub` wrapper for a literal pattern. -/
def pySubLit (pat repl s : Str) : Str := subAllF pat repl (s.length + 1) s

/-!
## ValidationErrCode (source lines 35-73)

The closed enumeration of finding kinds, with the English message template and
the fixed number of fill-in blanks of each kind.
-/

inductive ValidationErrCode where
  | NO_ERRORS
  | INDIC_NOT_IN_REG
  | INDIC_NO_DISPLAY_NAME
  | NUMER_NO_DESC
  | DENOM_NO_DESC
  | NUMER_NO_FORMULA
  | DENOM_NO_FORMULA
  | DENOM_FORMULA_NO_MATCH
  | INDIC_NUMBER_MISSING
  | FORMULA_NUMBER_MISSING
  | VBL_NOT_IN_REG
  | VBL_NO_METADATA
  | NUMER_EQS_DENOM
  | INDIC_PARSE_FAILED
deriving DecidableEq, Repr

/-- Numeric index of each code (first tuple component in the source). -/
def ValidationErrCode.index : ValidationErrCode → Nat
  | .NO_ERRORS => 0
  | .INDIC_NOT_IN_REG => 1
  | .INDIC_NO_DISPLAY_NAME => 2
  | .NUMER_NO_DESC => 3
  | .DENOM_NO_DESC => 4
  | .NUMER_NO_FORMULA => 5
  | .DENOM_NO_FORMULA => 6
  | .DENOM_FORMULA_NO_MATCH => 7
  | .INDIC_NUMBER_MISSING => 8
  | .FORMULA_NUMBER_MISSING => 9
  | .VBL_NOT_IN_REG => 10
  | .VBL_NO_METADATA => 11
  | .NUMER_EQS_DENOM => 12
  | .INDIC_PARSE_FAILED => 13

/-- English message template (second tuple component in the source). -/
def ValidationErrCode.eng_errmsg_template : ValidationErrCode → Str
  | .NO_ERRORS => "No errors found in indicator".toList
  | .INDIC_NOT_IN_REG => "Indicator ___ not in registry".toList
  | .INDIC_NO_DISPLAY_NAME => "Indicator ___ has no display name".toList
  | .NUMER_NO_DESC => "No description of the numerator".toList
  | .DENOM_NO_DESC => "No description of the denominator; we assume it is 1".toList
  | .NUMER_NO_FORMULA => "Numerator has no formula".toList
  | .DENOM_NO_FORMULA => "Denominator has no formula".toList
  | .DENOM_FORMULA_NO_MATCH => "Denominator formula does not match description".toList
  | .INDIC_NUMBER_MISSING =>
      ("Indicator description has a number in it (___)" ++
       " which does not appear in numerator or" ++
       " denominator descriptions or the indicator" ++
       " type").toList
  | .FORMULA_NUMBER_MISSING =>
      ("___ description contains a number (___)" ++
       " which does not appear in the formula").toList
  | .VBL_NOT_IN_REG =>
      ("Variable ___ appearing in the formula for ___ is not" ++
       " in the registry").toList
  | .VBL_NO_METADATA =>
      ("Variable ___ of type ___ appearing in the formula" ++
       " for ___ has no valid metadata").toList
  | .NUMER_EQS_DENOM => "Numerator and denominator have the same formula".toList
  | .INDIC_PARSE_FAILED => "Parsing of indicator ___ failed".toList

/-- Number of `___` blanks each code expects (third tuple component). -/
def ValidationErrCode.num_blanks : ValidationErrCode → Nat
  | .NO_ERRORS => 0
  | .INDIC_NOT_IN_REG => 1
  | .INDIC_NO_DISPLAY_NAME => 1
  | .NUMER_NO_DESC => 0
  | .DENOM_NO_DESC => 0
  | .NUMER_NO_FORMULA => 0
  | .DENOM_NO_FORMULA => 0
  | .DENOM_FORMULA_NO_MATCH => 0
  | .INDIC_NUMBER_MISSING => 1
  | .FORMULA_NUMBER_MISSING => 2
  | .VBL_NOT_IN_REG => 2
  | .VBL_NO_METADATA => 3
  | .NUMER_EQS_DENOM => 0
  | .INDIC_PARSE_FAILED => 1

/-- Source lines 65-73.  Raises `ValueError` when the argument count differs
from the code's arity; otherwise runs
`for i in range(num_blanks): errmsg = re.sub('___', fillin_list[i], errmsg)`.
Note `re.sub` with no count replaces EVERY occurrence of `___`, so iteration 0
already fills every blank of a multi-blank template. -/
def ValidationErrCode.eng_errmsg (c : ValidationErrCode) (fillin_list : List Str) :
    Except PyError Str :=
  if fillin_list.length ≠ c.num_blanks then
    .error (.valueError "Validation error code takes in a different number of values")
  else
    .ok (fillin_list.foldl (fun errmsg v => pySubLit "___".toList v errmsg)
          c.eng_errmsg_template)

/-!
## deplural (source lines 131-136)

```
def deplural(in_string):
  if not in_string or not type(in_string) is string: return ''
  if in_string[-1] == 's' and in_string[-2] != 's':
    return in_string[:-1]
  else: return in_string
```

The module never defines (or imports) a name `string` — Python has `str` —
so evaluating `type(in_string) is string` raises
`NameError: name 'string' is not defined`.  `not in_string` short-circuits
the `or`, so falsy inputs (`None`, `''`) return `''`; every truthy input
reaches the undefined name and raises.  The singularization in lines 134-136
is therefore unreachable. -/
def deplural (in_string : Option Str) : Except PyError Str :=
  match in_string with
  | none => .ok []
  | some s => if s = [] then .ok [] else .error (.nameError "string")

/-!
## extract_numerical_factor (source lines 159-195)

The two regexes are hand-compiled to scanners with Python `re` semantics
(leftmost match; alternatives tried left to right at each position; greedy
quantifiers).
-/

/-- Keys of `factor_dict`, in source (insertion) order. -/
def factor_words : List Str :=
  ["ten".toList, "hundred".toList, "thousand".toList,
   "million".toList, "billion".toList, "percent".toList]

/-- Values of `factor_dict`. The `0` default is unreachable: callers only pass
words produced by the `factor_words` matcher. -/
def factor_value (w : Str) : Nat :=
  if w = "ten".toList then 10
  else if w = "hundred".toList then 100
  else if w = "thousand".toList then 1000
  else if w = "million".toList then 1000000
  else if w = "billion".toList then 1000000000
  else if w = "percent".toList then 100
  else 0

/-- `re.sub('\s|,', '', text)`: strip whitespace and commas. -/
def stripWsComma (s : Str) : Str := s.filter (fun c => !(isPySpace c || c = ','))

/-- `re.sub('\s|\-', '  ', text)`: each whitespace or hyphen becomes two
spaces. -/
def doubleSpace (s : Str) : Str :=
  (s.map (fun c => if isPySpace c || c = '-' then [' ', ' '] else [c])).flatten

/-- Which alternative of the multiplicative number regex
`(?:pour|per|par|[\*\/])(\d+)|(\d+)\*` matched: `viaWord` carries group(1),
`viaStar` carries group(2) (group(1) is then `None`). -/
inductive MultHit where
  | viaWord (digits : Str)
  | viaStar (digits : Str)
deriving DecidableEq, Repr

/-- Match of the multiplicative pattern anchored at the head of `s`,
alternatives in source order.  The three word prefixes and the two symbol
prefixes are mutually exclusive, so no backtracking across them arises. -/
def multAt (s : Str) : Option MultHit :=
  let afterPre : Option Str :=
    if "pour".toList.isPrefixOf s then some (s.drop 4)
    else if "per".toList.isPrefixOf s then some (s.drop 3)
    else if "par".toList.isPrefixOf s then some (s.drop 3)
    else match s with
      | c :: rest => if c = '*' || c = '/' then some rest else none
      | [] => none
  match afterPre with
  | some rest =>
    let d := rest.takeWhile Char.isDigit
    if d ≠ [] then some (.viaWord d)
    else
      let d2 := s.takeWhile Char.isDigit
      if d2 ≠ [] ∧ (s.drop d2.length).head? = some '*' then some (.viaStar d2) else none
  | none =>
    let d2 := s.takeWhile Char.isDigit
    if d2 ≠ [] ∧ (s.drop d2.length).head? = some '*' then some (.viaStar d2) else none

/-- `re.search` of the multiplicative pattern: leftmost position wins. -/
def searchMult : Str → Option MultHit
  | [] => none
  | s@(_ :: rest) =>
    match multAt s with
    | some h => some h
    | none => searchMult rest

/-- `re.search('(\d+)', s)`: leftmost maximal digit run. -/
def searchNumber : Str → Option Str
  | [] => none
  | c :: rest =>
    if c.isDigit then some ((c :: rest).takeWhile Char.isDigit) else searchNumber rest

/-- Factor-word match anchored at `s` for
`(?:^|\s)(ten|...|percent)(?:\s|$)`: the word alternatives are tried in
source order; on success returns the word (group 1) and the remainder after
the consumed trailing-boundary character, if any. -/
def wordHereAux : List Str → Str → Option (Str × Str)
  | [], _ => none
  | w :: ws, s =>
    if w.isPrefixOf s then
      match s.drop w.length with
      | [] => some (w, [])
      | c :: cs => if isPySpace c then some (w, cs) else wordHereAux ws s
    else wordHereAux ws s

/-- Factor-word match at a scan position: `(?:^|\s)` tries `^` first (only
meaningful at the absolute start, flag `bol`), then consumes one whitespace
character. -/
def factorMatchAt (s : Str) (bol : Bool) : Option (Str × Str) :=
  match (if bol then wordHereAux factor_words s else none) with
  | some r => some r
  | none =>
    match s with
    | c :: cs => if isPySpace c then wordHereAux factor_words cs else none
    | [] => none

/-- `re.finditer` of the factor regex: group-1 words of all non-overlapping
matches, left to right (scanning resumes after each match's span).  Fuel ≥
`s.length + 1` suffices: every step consumes at least one character. -/
def findFactorsF : Nat → Str → Bool → List Str
  | 0, _, _ => []
  | fuel + 1, s, bol =>
    match s with
    | [] => []
    | _ :: rest =>
      match factorMatchAt s bol with
      | some (w, af) => w :: findFactorsF fuel af false
      | none => findFactorsF fuel rest false

/-- All factor-word matches of `doubleSpace`-rewritten text. -/
def findFactors (s : Str) : List Str := findFactorsF (s.length + 1) s true

/-- Source lines 186-193: if any factor word matches, multiply the values of
all matches together (starting from 1); otherwise `None`. -/
def factorPhase (display_text : Str) : Option Nat :=
  let ws := findFactors (doubleSpace display_text)
  match ws with
  | [] => none
  | _ => some (ws.foldl (fun n w => n * factor_value w) 1)

/-- Source lines 166-195.  With `is_multiplicative`, the number regex has two
groups, so the source's `len(number_match.groups()) < 3` test is true and it
always evaluates `int(number_match.group(1))` — which raises `TypeError`
when the `(\d+)\*` alternative (group 2) was the one that matched, because
group(1) is then `None`.  (The dead `else` branch
`int(group(1) or group(2))` shows the intended handling.) -/
def extract_numerical_factor (display_text : Str) (is_multiplicative : Bool) :
    Except PyError (Option Nat) :=
  let stripped := stripWsComma display_text
  if is_multiplicative then
    match searchMult stripped with
    | some (.viaWord d) => .ok (some (digitsToNat d))
    | some (.viaStar _) => .error (.typeError "int() argument is None")
    | none => .ok (factorPhase display_text)
  else
    match searchNumber stripped with
    | some d => .ok (some (digitsToNat d))
    | none => .ok (factorPhase display_text)

/-!
## Formula tokenizer (source lines 341-353)

`total_regex = vbl_regex | oper_regex | number_regex`, scanned by
`re.finditer`: at each position the three alternatives are tried in that
order; unmatched characters are skipped.  The loop body re-dispatches each
match by `re.match` against `number_regex`/`oper_regex`, which recovers
exactly the alternative that produced the token, so tokens carry their kind
directly.
-/

inductive Token where
  /-- A `(\d+\.\d+)` match; `txt` is the matched text (always contains `.`). -/
  | num (txt : Str)
  /-- A `([\+\-\/\*])` match. -/
  | oper (c : Char)
  /-- A variable-term match; `g2 g3 g4` are the three sub-part groups. -/
  | vbl (g2 g3 g4 : Str)
deriving DecidableEq, Repr

/-- `\w` (ASCII scope, as in all identifiers this program meets). -/
def isWordChar (c : Char) : Bool := c.isAlphanum || c = '_'

/-- The `[\w|\*]` character class of the sub-part groups (the class of group 4
adds `_`, which `\w` already contains). -/
def isClsChar (c : Char) : Bool := isWordChar c || c = '|' || c = '*'

/-- Match of `vbl_regex = (?:[#ACDIR]|OUG)\{([\w|\*]*)\.?([\w|\*]*)\.?([\w|\*|_]*)\}`
anchored at `s`: returns groups 2-4 and the matched length.  The class
excludes `.` and both braces, so the greedy scan (maximal run, optional dot,
maximal run, optional dot, maximal run, closing brace) is exactly the regex's
backtracking behaviour. -/
def matchVbl (s : Str) : Option (Str × Str × Str × Nat) :=
  let pre : Option Nat :=
    match s with
    | c :: _ =>
      if c = '#' || c = 'A' || c = 'C' || c = 'D' || c = 'I' || c = 'R' then some 1
      else if "OUG".toList.isPrefixOf s then some 3
      else none
    | [] => none
  match pre with
  | none => none
  | some k =>
    match s.drop k with
    | c :: t1 =>
      if c = lbrace then
        let r1 := t1.takeWhile isClsChar
        let u1 := t1.drop r1.length
        let (d1, u2) : Nat × Str :=
          match u1 with
          | '.' :: u => (1, u)
          | _ => (0, u1)
        let r2 := u2.takeWhile isClsChar
        let u3 := u2.drop r2.length
        let (d2, u4) : Nat × Str :=
          match u3 with
          | '.' :: u => (1, u)
          | _ => (0, u3)
        let r3 := u4.takeWhile isClsChar
        match u4.drop r3.length with
        | c2 :: _ =>
          if c2 = rbrace then
            some (r1, r2, r3, k + 1 + r1.length + d1 + r2.length + d2 + r3.length + 1)
          else none
        | [] => none
      else none
    | [] => none

/-- Match of `number_regex = (\d+\.\d+)` anchored at `s`: maximal digit run,
a mandatory dot, a second digit run; returns the matched text and length.
Plain integers (no dot) do NOT match. -/
def matchNum (s : Str) : Option (Str × Nat) :=
  let d1 := s.takeWhile Char.isDigit
  if d1 = [] then none
  else
    match s.drop d1.length with
    | '.' :: u =>
      let d2 := u.takeWhile Char.isDigit
      if d2 = [] then none else some (d1 ++ '.' :: d2, d1.length + 1 + d2.length)
    | _ => none

/-- The `([\+\-\/\*])` operator class. -/
def operChars : List Char := ['+', '-', '/', '*']

/-- `re.finditer(total_regex, formula)`: every match advances past its span
(all matches are at least one character), unmatched characters are skipped.
Fuel ≥ `s.length + 1` suffices. -/
def scanTokensF : Nat → Str → List Token
  | 0, _ => []
  | fuel + 1, s =>
    match s with
    | [] => []
    | c :: rest =>
      match matchVbl s with
      | some (g2, g3, g4, k) => .vbl g2 g3 g4 :: scanTokensF fuel (s.drop k)
      | none =>
        if c ∈ operChars then .oper c :: scanTokensF fuel rest
        else
          match matchNum s with
          | some (txt, k) => .num txt :: scanTokensF fuel (s.drop k)
          | none => scanTokensF fuel rest

/-- Token stream of a formula string. -/
def scanTokens (s : Str) : List Token := scanTokensF (s.length + 1) s

/-!
## Registry model and variable resolution (source lines 283-329)

The registry lookups are the program's HTTP boundary
(`get_authorized_json`).  `identifiable` models the
`/api/identifiableObjects/<id>` lookup, returning the collection component
`href.split('/')[-2]` of the found record's self-link, or `none` when no
record (or no `href`) comes back.  `records` models `/api/<type>/<id>`,
returning the parsed JSON record, or `none` when the response is falsy.
-/

/-- The JSON fields of a registry record that this program reads. -/
structure RegRecord where
  displayName : Option Str := none
  numeratorDescription : Option Str := none
  denominatorDescription : Option Str := none
  numerator : Option Str := none
  denominator : Option Str := none
  indicatorTypeId : Option Str := none
deriving DecidableEq, Repr

structure Registry where
  identifiable : Str → Option Str
  records : Str → Str → Option RegRecord

/-- The relevant `self` state of `DHIS2Parser` for formula processing:
`_auth['baseUrl']`, `_element_type`, `_element_ids`, `_indicator_type_map`. -/
structure Env where
  registry : Registry
  baseUrl : Str
  element_type : Str
  element_ids : List Str
  indicator_type_map : List (Str × Nat)

/-- A `self._vbl_names` cache entry `[display name, lookup error code,
variable type]`. -/
structure VblEntry where
  displayName : Option Str
  code : ValidationErrCode
  vblType : Str
deriving DecidableEq, Repr

abbrev Cache := List (Str × VblEntry)

/-- Source lines 283-292 (`_get_unknown_type_metadata`). -/
def DHIS2Parser.get_unknown_type_metadata (env : Env) (element_id : Str) :
    Option RegRecord × ValidationErrCode × Option Str :=
  match env.registry.identifiable element_id with
  | none => (none, .VBL_NOT_IN_REG, none)
  | some elt_type => (env.registry.records elt_type element_id, .NO_ERRORS, some elt_type)

/-- Source lines 294-297 (`_get_known_type_metadata`). -/
def DHIS2Parser.get_known_type_metadata (env : Env) (element_id element_type : Str) :
    Option RegRecord × ValidationErrCode × Option Str :=
  (env.registry.records element_type element_id, .NO_ERRORS, some element_type)

/-- Source lines 308-329, the body of `_get_variable_name` after the fetch:
pipes the element type through `deplural` — which raises `NameError` for
every non-empty type string — then classifies the fetched record.  The cache
is written only after `deplural` returns, so a raising call leaves the cache
unchanged. -/
def DHIS2Parser.classify_variable (cache : Cache) (vbl_id : Str)
    (fetched : Option RegRecord × ValidationErrCode × Option Str) :
    Except PyError (VblEntry × Cache) :=
  match deplural fetched.2.2 with
    | .error e => .error e
    | .ok vbl_type =>
      match fetched.1 with
      | none =>
        let vcode := if fetched.2.1 = .NO_ERRORS then .VBL_NO_METADATA else fetched.2.1
        let e : VblEntry := ⟨none, vcode, vbl_type⟩
        .ok (e, cache ++ [(vbl_id, e)])
      | some js =>
        match js.displayName with
        | some dn =>
          if dn ≠ [] then
            let e : VblEntry := ⟨some dn, .NO_ERRORS, vbl_type⟩
            .ok (e, cache ++ [(vbl_id, e)])
          else
            let e : VblEntry := ⟨none, .VBL_NO_METADATA, vbl_type⟩
            .ok (e, cache ++ [(vbl_id, e)])
        | none =>
          let e : VblEntry := ⟨none, .VBL_NO_METADATA, vbl_type⟩
          .ok (e, cache ++ [(vbl_id, e)])

/-- Source lines 304-329 continued: on a cache miss, fetch (known-type when
the id belongs to the current group, generic otherwise) and classify. -/
def DHIS2Parser.get_variable_name (env : Env) (cache : Cache) (vbl_id : Str) :
    Except PyError (VblEntry × Cache) :=
  match lookupA cache vbl_id with
  | some e => .ok (e, cache)
  | none =>
    DHIS2Parser.classify_variable cache vbl_id
      (if vbl_id ∈ env.element_ids
       then DHIS2Parser.get_known_type_metadata env vbl_id env.element_type
       else DHIS2Parser.get_unknown_type_metadata env vbl_id)

/-!
## _parse_formula (source lines 331-409)
-/

/-- `'??????'`, the placeholder for unresolved names. -/
def qmarks : Str := "??????".toList

/-- The literal string `"1"`. -/
def oneStr : Str := "1".toList

/-- Python `(data_elt_name or '??????')`: `None` and `''` are falsy. -/
def pyOr (o : Option Str) : Str :=
  match o with
  | some s => if s ≠ [] then s else qmarks
  | none => qmarks

/-- `str(number)` where `number : int | None`. -/
def numToStr (number : Option Nat) : Str :=
  match number with
  | some n => natStr n
  | none => "None".toList

/-- Loop state of `_parse_formula`: the calculation text, the accumulated
validation values, the per-formula `vbls_seen` dedup list, the
`number_seen` flag and the shared `_vbl_names` cache. -/
structure PSt where
  calcText : Str
  vv : List (ValidationErrCode × List Str)
  vbls_seen : List Str
  number_seen : Bool
  cache : Cache
deriving Repr

/-- Source lines 372-377 (identically 388-393 and 398-403): on the first
occurrence of `vid` in this formula, record it and — when its lookup code is
not `NO_ERRORS` — append a finding whose arguments include the element type
only when that type string is truthy (non-empty). -/
def addVblFinding (quantity_type vid vtype : Str) (vcode : ValidationErrCode)
    (st : PSt) : PSt :=
  if vid ∈ st.vbls_seen then st
  else
    { st with
      vbls_seen := st.vbls_seen ++ [vid],
      vv := st.vv ++
        (if vcode ≠ .NO_ERRORS then
          [(vcode, if vtype ≠ [] then [vid, vtype, quantity_type] else [vid, quantity_type])]
         else []) }

/-- Shared shape of the primary/coc/aoc handling: resolve the id, append its
display name (or `??????`) to the calculation, then dedup-record a finding. -/
def resolveAndRecord (env : Env) (quantity_type : Str) (vid : Str) (st : PSt) :
    Except PyError PSt :=
  match DHIS2Parser.get_variable_name env st.cache vid with
  | .error e => .error e
  | .ok (ent, cache') =>
    .ok (addVblFinding quantity_type vid ent.vblType ent.code
      { st with calcText := st.calcText ++ ' ' :: pyOr ent.displayName, cache := cache' })

/-- Source lines 357-362: decimal-literal and operator tokens append their
text and can mark `number` as seen only when their text `isdigit()` and its
int value equals `number` — impossible for these token shapes, since a
`(\d+\.\d+)` match always contains `.` and an operator is not a digit. -/
def numOperStep (number : Option Nat) (txt : Str) (st : PSt) : PSt :=
  let st := { st with calcText := st.calcText ++ ' ' :: txt }
  if pyIsDigit txt ∧ number = some (digitsToNat txt) then { st with number_seen := true }
  else st

/-- Source lines 356-403: one token of the formula loop. -/
def processToken (env : Env) (quantity_type : Str) (number : Option Nat)
    (st : PSt) : Token → Except PyError PSt
  | .num txt => .ok (numOperStep number txt st)
  | .oper c => .ok (numOperStep number [c] st)
  | .vbl g2 g3 g4 =>
    match DHIS2Parser.get_variable_name env st.cache g2 with
    | .error e => .error e
    | .ok (ent, cache') =>
      let st1 := addVblFinding quantity_type g2 ent.vblType ent.code
        { st with calcText := st.calcText ++ ' ' :: pyOr ent.displayName, cache := cache' }
      let afterCoc : Except PyError PSt :=
        if g3 ≠ [] ∧ g3 ≠ ['*'] then
          -- dataSet metric suffix special case (source lines 380-384)
          if ent.vblType = "dataSet".toList ∧ '_' ∈ g3 then
            .ok { st1 with calcText := st1.calcText ++ ' ' :: g3 }
          else resolveAndRecord env quantity_type g3 st1
        else .ok st1
      match afterCoc with
      | .error e => .error e
      | .ok st2 =>
        if g4 ≠ [] ∧ g4 ≠ ['*'] then resolveAndRecord env quantity_type g4 st2
        else .ok st2

/-- The `for term in parsed_formula` loop. -/
def parseTokens (env : Env) (quantity_type : Str) (number : Option Nat) :
    List Token → PSt → Except PyError PSt
  | [], st => .ok st
  | t :: ts, st =>
    match processToken env quantity_type number st t with
    | .error e => .error e
    | .ok st' => parseTokens env quantity_type number ts st'

/-- Source lines 333-409 (`_parse_formula`): tokenize, run the loop starting
from `number_seen = (number is None)`, then append the
`FORMULA_NUMBER_MISSING` finding when the number was never seen. -/
def DHIS2Parser.parse_formula (env : Env) (cache : Cache) (formula : Str)
    (number : Option Nat) (quantity_type : Str) :
    Except PyError (Str × List (ValidationErrCode × List Str) × Cache) :=
  match parseTokens env quantity_type number (scanTokens formula)
      { calcText := [], vv := [], vbls_seen := [], number_seen := number.isNone, cache := cache } with
  | .error e => .error e
  | .ok st =>
    let vv :=
      if st.number_seen then st.vv
      else st.vv ++ [(.FORMULA_NUMBER_MISSING, [quantity_type, numToStr number])]
    .ok (st.calcText, vv, st.cache)

/-!
## _get_indicator_description (source lines 411-532)
-/

/-- Source lines 84-88 (`construct_display_url`). -/
def construct_display_url (base_url element_type element_id friendly_name : Str) :
    Str × Str :=
  let output_url :=
    "https://".toList ++ base_url ++ "/api/".toList ++ element_type ++ '/' :: element_id
  let display_url :=
    "=HYPERLINK(\"".toList ++ output_url ++ "\";\"".toList ++ friendly_name ++ "\")".toList
  (output_url, display_url)

/-- The string `"indicators"`. -/
def indicatorsStr : Str := "indicators".toList

/-- The per-indicator output dictionary: the `fieldnames` columns plus
`Validation values`, `Indicator Url`, `Display Url` and `Calculation`
(keys the code may leave unset are modelled as their `''`/`[]` inits). -/
structure Values where
  groupDescription : Str := []
  indicatorId : Str := []
  indicatorName : Str := []
  numeratorDescription : Str := []
  denominatorDescription : Str := []
  calculation : Str := []
  indicatorUrl : Str := []
  displayUrl : Str := []
  validationValues : List (ValidationErrCode × List Str) := []
deriving DecidableEq, Repr

/-- Missing-or-empty test for the denominator description (source line 464:
`'denominatorDescription' in indicator_json and ... != ''`). -/
def denomDescMissing (o : Option Str) : Bool :=
  match o with
  | some d => d.isEmpty
  | none => true

/-- Source line 477's guard
`indicator_number and indicator_number != denominator_number and ...`:
Python truthiness of the optional int (None and 0 are falsy) plus the three
disequalities (`int != None` is always true). -/
def indicNumberMismatch (ind den num : Option Nat) (itn : Nat) : Bool :=
  match ind with
  | some n => n != 0 && some n != den && some n != num && n != itn
  | none => false

/-- Source lines 411-532 (`_get_indicator_description`).  Field accesses are
guarded exactly as in the source; the three `extract_numerical_factor` calls
and the two `_parse_formula` calls can raise, which aborts the record (the
caller's thread swallows the exception).  Findings are appended in source
order. -/
def DHIS2Parser.get_indicator_description (env : Env) (cache : Cache)
    (indicator_id : Str) : Except PyError (Values × Cache) :=
  match env.registry.records indicatorsStr indicator_id with
  | none =>
    .ok ({ indicatorId := indicator_id,
           validationValues := [(.INDIC_NOT_IN_REG, [indicator_id])] }, cache)
  | some j =>
    let display_name := j.displayName.getD []
    let vv1 : List (ValidationErrCode × List Str) :=
      if j.displayName = none then [(.INDIC_NO_DISPLAY_NAME, [indicator_id])] else []
    let indicator_type_number :=
      match j.indicatorTypeId with
      | some it => match lookupA env.indicator_type_map it with | some n => n | none => 1
      | none => 1
    match extract_numerical_factor display_name true with
    | .error e => .error e
    | .ok indNum0 =>
    let indicator_number := if indNum0 = some 1 then none else indNum0
    let urls := construct_display_url env.baseUrl indicatorsStr indicator_id display_name
    let numerDesc := j.numeratorDescription.getD qmarks
    let vv2 : List (ValidationErrCode × List Str) :=
      if j.numeratorDescription = none then [(.NUMER_NO_DESC, [])] else []
    match extract_numerical_factor numerDesc true with
    | .error e => .error e
    | .ok numerator_number =>
    let denomDesc :=
      match j.denominatorDescription with
      | some d => if d.isEmpty then oneStr else d
      | none => oneStr
    let vv3 : List (ValidationErrCode × List Str) :=
      if denomDescMissing j.denominatorDescription then [(.DENOM_NO_DESC, [])] else []
    match extract_numerical_factor denomDesc true with
    | .error e => .error e
    | .ok denNum0 =>
    let denominator_number := if denNum0 = some 1 then none else denNum0
    let vv4 : List (ValidationErrCode × List Str) :=
      if indicNumberMismatch indicator_number denominator_number numerator_number
           indicator_type_number
      then [(.INDIC_NUMBER_MISSING, [numToStr indicator_number])] else []
    let numerator := j.numerator.getD qmarks
    let vv5 : List (ValidationErrCode × List Str) :=
      if j.numerator = none then [(.NUMER_NO_FORMULA, [])] else []
    let denominator := j.denominator.getD qmarks
    let vv6 : List (ValidationErrCode × List Str) :=
      if j.denominator = none then [(.DENOM_NO_FORMULA, [])] else []
    let vv7 : List (ValidationErrCode × List Str) :=
      if ¬((denominator = oneStr) ↔ (denomDesc = oneStr)) then
        [(.DENOM_FORMULA_NO_MATCH, [])] else []
    let vv8 : List (ValidationErrCode × List Str) :=
      if numerator = denominator then [(.NUMER_EQS_DENOM, [])] else []
    match DHIS2Parser.parse_formula env cache numerator numerator_number
        "numerator".toList with
    | .error e => .error e
    | .ok (numer_calc, numer_vv, cache1) =>
    match DHIS2Parser.parse_formula env cache1 denominator denominator_number
        "denominator".toList with
    | .error e => .error e
    | .ok (denom_calc, denom_vv, cache2) =>
    .ok ({ indicatorId := indicator_id,
           indicatorName := display_name,
           numeratorDescription := numerDesc,
           denominatorDescription := denomDesc,
           indicatorUrl := urls.1,
           displayUrl := urls.2,
           calculation := lbrace ::
             (numer_calc ++ (' ' :: rbrace :: " / ".toList ++ lbrace ::
               (denom_calc ++ [' ', rbrace]))),
           validationValues :=
             vv1 ++ vv2 ++ vv3 ++ vv4 ++ vv5 ++ vv6 ++ vv7 ++ vv8 ++
               numer_vv ++ denom_vv }, cache2)

/-!
## output_all_indicators (source lines 534-558)

`DHIS2Parser.__init__` / `set_group_id` define the instance attributes
`values`, `group`, `group_desc`, `_auth`, `_indic_to_desc`, `_vbl_names`,
`_element_type`, `_element_ids`, `_indicator_type_map` (and nothing else).
Lines 548 and 553 read `self.element_ids` and `self.indic_to_desc` — names
WITHOUT the leading underscore, which no code ever assigns — so Python
attribute lookup raises `AttributeError` there.  Attribute lookup is
modelled explicitly by `getattrP` over the defined-attribute table (Lean
field names drop the Python names' leading underscore).
-/

/-- The mutable `self` of a `DHIS2Parser` instance. -/
structure ParserObj where
  group_desc : Str
  indic_to_desc : List (Str × Values)
  vbl_names : Cache
  auth_baseUrl : Str
  element_type : Str
  element_ids : List Str
  indicator_type_map : List (Str × Nat)

/-- Values an attribute lookup can produce (attributes the scan method never
reads are collapsed to `other`). -/
inductive AttrVal where
  | str (s : Str)
  | strList (l : List Str)
  | descMap (m : List (Str × Values))
  | other
deriving DecidableEq

/-- Python attribute lookup on a `DHIS2Parser` instance: exactly the
attributes assigned in `__init__`/`set_group_id` resolve; any other name
raises `AttributeError`. -/
def getattrP (st : ParserObj) (name : String) : Except PyError AttrVal :=
  if name = "values" then .ok .other
  else if name = "group" then .ok .other
  else if name = "group_desc" then .ok (.str st.group_desc)
  else if name = "_auth" then .ok .other
  else if name = "_indic_to_desc" then .ok (.descMap st.indic_to_desc)
  else if name = "_vbl_names" then .ok .other
  else if name = "_element_type" then .ok (.str st.element_type)
  else if name = "_element_ids" then .ok (.strList st.element_ids)
  else if name = "_indicator_type_map" then .ok .other
  else .error (.attributeError name)

/-- The `Env` view of a parser instance. -/
def ParserObj.env (st : ParserObj) (reg : Registry) : Env :=
  ⟨reg, st.auth_baseUrl, st.element_type, st.element_ids, st.indicator_type_map⟩

/-- Source lines 534-538 (`_add_desc_to_dict`), as executed inside an
`executor.map` worker whose result future is never read: an exception in
`_get_indicator_description` is captured by the future and simply leaves no
`_indic_to_desc` entry (the dict write happens after the call returns). -/
def DHIS2Parser.add_desc_to_dict (env : Env)
    (acc : List (Str × Values) × Cache) (indicator_id : Str) :
    List (Str × Values) × Cache :=
  match lookupA acc.1 indicator_id with
  | some _ => acc
  | none =>
    match DHIS2Parser.get_indicator_description env acc.2 indicator_id with
    | .ok (v, cache') => (acc.1 ++ [(indicator_id, v)], cache')
    | .error _ => acc

/-- The columns reset to `''` by line 549's
`dict(zip(fieldnames, map(lambda x: '', fieldnames)))`. -/
def blankRow : Values := {}

/-- Source lines 540-558 (`output_all_indicators`).  The `executor.map`
fan-out is modelled as a sequential fold in the canonical id order (workers
only populate the keyed `_indic_to_desc` map; the subsequent assembly loop —
were it reachable — iterates the canonical id list).  Line 548's
`self.element_ids` attribute read raises before any row is assembled. -/
def DHIS2Parser.output_all_indicators (reg : Registry) (st : ParserObj) :
    Except PyError (List Values) :=
  match getattrP st "_element_type" with
  | .error e => .error e
  | .ok et =>
    if et ≠ AttrVal.str indicatorsStr then .ok []
    else
      match getattrP st "_element_ids" with
      | .error e => .error e
      | .ok (AttrVal.strList ids) =>
        let _mapped := ids.foldl (DHIS2Parser.add_desc_to_dict (st.env reg))
          (st.indic_to_desc, st.vbl_names)
        -- line 548: `for indicator_id in self.element_ids:`
        match getattrP st "element_ids" with
        | .error e => .error e
        | .ok (AttrVal.strList ids2) =>
          -- unreachable; modelled for completeness (line 553 reads
          -- `self.indic_to_desc`, also undefined)
          ids2.foldlM (fun acc iid =>
            match getattrP st "indic_to_desc" with
            | .error e => .error e
            | .ok (AttrVal.descMap m) =>
              let tmp :=
                match lookupA m iid with
                | some d => d
                | none => { blankRow with
                    validationValues := [(.INDIC_PARSE_FAILED, [iid])] }
              match getattrP st "group_desc" with
              | .error e => .error e
              | .ok (AttrVal.str gd) => .ok (acc ++ [{ tmp with groupDescription := gd }])
              | .ok _ => .error (.typeError "unexpected attribute value")
            | .ok _ => .error (.typeError "unexpected attribute value")) []
        | .ok _ => .error (.typeError "unexpected attribute value")
      | .ok _ => .error (.typeError "unexpected attribute value")

/-!
## Concrete fixtures used by the claim theorems
-/

/-- A registry with no records at all. -/
def regEmpty : Registry := ⟨fun _ => none, fun _ _ => none⟩

def envEmpty : Env := ⟨regEmpty, [], [], [], []⟩

/-- Registry for the round-trip scenario of §8: indicator `IND1` has
numerator `#{A.B}` and denominator `"1"`; `A` resolves to "Cases" (a data
element) and `B` to "Total" (a category option combo). -/
def regRoundtrip : Registry := {
  identifiable := fun id =>
    if id = "A".toList then some "dataElements".toList
    else if id = "B".toList then some "categoryOptionCombos".toList
    else none,
  records := fun t i =>
    if t = indicatorsStr ∧ i = "IND1".toList then
      some { displayName := some "Indicator One".toList,
             numeratorDescription := some "Cases count".toList,
             denominatorDescription := some "1".toList,
             numerator := some "#\x7bA.B\x7d".toList,
             denominator := some "1".toList }
    else if t = "dataElements".toList ∧ i = "A".toList then
      some { displayName := some "Cases".toList }
    else if t = "categoryOptionCombos".toList ∧ i = "B".toList then
      some { displayName := some "Total".toList }
    else none }

def envRoundtrip : Env := ⟨regRoundtrip, "x".toList, indicatorsStr, ["IND1".toList], []⟩

/-- Registry holding one variable `A` that the generic lookup finds in the
`dataElements` collection, with display name "Cases". -/
def regResolvable : Registry := {
  identifiable := fun id => if id = "A".toList then some "dataElements".toList else none,
  records := fun t i =>
    if t = "dataElements".toList ∧ i = "A".toList then
      some { displayName := some "Cases".toList }
    else none }

def envResolvable : Env := ⟨regResolvable, "x".toList, indicatorsStr, [], []⟩

/-- Registry where the generic lookup finds `XYZ` under `dataElements` but
the follow-up typed metadata fetch returns nothing usable. -/
def regNoMetadata : Registry := {
  identifiable := fun id => if id = "XYZ".toList then some "dataElements".toList else none,
  records := fun _ _ => none }

def envNoMetadata : Env := ⟨regNoMetadata, "x".toList, indicatorsStr, [], []⟩

/-- An indicator record whose validation completes: its formulas reference no
variables, but its denominator formula is the literal "1" while its
denominator description is "2". -/
def jMismatch : RegRecord :=
  { displayName := some "Foo".toList,
    numeratorDescription := some "Bar".toList,
    denominatorDescription := some "2".toList,
    numerator := some "2.0".toList,
    denominator := some "1".toList }

/-- Registry holding `jMismatch` as the single indicator `I8`. -/
def regMismatch : Registry := {
  identifiable := fun _ => none,
  records := fun t i =>
    if t = indicatorsStr ∧ i = "I8".toList then some jMismatch else none }

def envMismatch : Env := ⟨regMismatch, "x".toList, indicatorsStr, ["I8".toList], []⟩

/-- A parser instance scanning an indicators group with the single,
fully-completing member `I8`. -/
def parserObjMismatch : ParserObj :=
  { group_desc := "G".toList,
    indic_to_desc := [],
    vbl_names := [],
    auth_baseUrl := "x".toList,
    element_type := indicatorsStr,
    element_ids := ["I8".toList],
    indicator_type_map := [] }

/-!
## Claim theorems
-/

/-- C1: the claim says a formula containing the expected number as an operand
produces no FormulaNumberMissing finding.  The code disagrees: its literal
token pattern `(\d+\.\d+)` demands a decimal point, so the integer `1000` in
the formula `"1000"` is never tokenized (and the `isdigit()` seen-check can
never succeed on any token), hence `evaluate("1000", 1000, "numerator")`
nevertheless emits the FormulaNumberMissing finding. -/
theorem formula_number_missing_despite_integer_operand :
    DHIS2Parser.parse_formula envEmpty [] "1000".toList (some 1000) "numerator".toList =
      .ok ([], [(.FORMULA_NUMBER_MISSING, ["numerator".toList, "1000".toList])], []) := rfl

/-- C2: the §8 round-trip record (numerator `#{A.B}`, denominator `"1"`, `A`
→ "Cases", `B` → "Total") does not produce
`calculationText == "{ Cases Total } / { 1 }"`: resolving `A` reaches
`deplural("dataElements")`, which evaluates the undefined name `string` and
raises `NameError`, so no record is assembled at all. -/
theorem roundtrip_raises_name_error :
    DHIS2Parser.get_indicator_description envRoundtrip [] "IND1".toList =
      .error (.nameError "string") := rfl

/-- C3: rendering a two-argument finding does not put the second argument
into the second blank: `re.sub('___', arg, msg)` replaces EVERY blank, so the
first loop iteration fills both blanks with the first argument and the second
iteration finds nothing left to replace. -/
theorem render_fills_all_blanks_with_first_arg :
    ValidationErrCode.eng_errmsg .VBL_NOT_IN_REG ["VID".toList, "IID".toList] =
      .ok ("Variable VID appearing in the formula for VID is not in the registry".toList) := rfl

/-- C4: resolving a variable whose registry lookup yields a record with the
non-empty display name "Cases" does not return Resolved — it raises
`NameError` inside `deplural` (undefined name `string`) as soon as the
non-empty element type "dataElements" is singularized. -/
theorem resolve_found_variable_raises_name_error :
    DHIS2Parser.get_variable_name envResolvable [] "A".toList =
      .error (.nameError "string") := rfl

/-- C5: scanning an indicators group never returns the per-member record
list: after the worker fan-out, line 548 reads `self.element_ids` — an
attribute the class never defines (it defines `_element_ids`) — so the
assembly loop raises `AttributeError`, even for a group whose single member
validates without error. -/
theorem output_all_indicators_attribute_error :
    DHIS2Parser.output_all_indicators regMismatch parserObjMismatch =
      .error (.attributeError "element_ids") := rfl

/-- C6: `extract` is not total: on `"1000*"` (a number immediately followed
by `*`) with `multiplicative=true`, the match comes from the second
alternative `(\d+)\*`, group(1) is `None`, and the source's
`len(groups()) < 3` branch evaluates `int(None)` — a `TypeError` — instead
of returning 1000. -/
theorem extract_star_pattern_raises_type_error :
    extract_numerical_factor "1000*".toList true =
      .error (.typeError "int() argument is None") := rfl

/-- C7 counterexample: magnitude-word matching is not case-insensitive;
`extract("Percent", false)` is `None`, not 100, and `extract("TEN THOUSAND",
false)` is `None`, not 10000. -/
theorem extract_case_insensitive_counterexample :
    extract_numerical_factor "Percent".toList false ≠ .ok (some 100) ∧
    extract_numerical_factor "TEN THOUSAND".toList false ≠ .ok (some 10000) := by
  constructor <;> decide

/-- C7 amended: magnitude-word matching is case-sensitive and matches only
the lowercase words: lowercase "percent"/"ten thousand" extract 100/10000,
while "Percent"/"TEN THOUSAND" extract nothing. -/
theorem extract_magnitude_words_case_sensitive :
    extract_numerical_factor "percent".toList false = .ok (some 100) ∧
    extract_numerical_factor "ten thousand".toList false = .ok (some 10000) ∧
    extract_numerical_factor "Percent".toList false = .ok none ∧
    extract_numerical_factor "TEN THOUSAND".toList false = .ok none :=
  ⟨rfl, rfl, rfl, rfl⟩

/-- C10: for a variable id whose generic identifiable-object lookup succeeds
(collection path "dataElements") but whose typed metadata fetch yields
nothing, resolve does not return NoMetadata: it raises `NameError` inside
`deplural` (undefined name `string`) before the error-code routing of lines
314-321 is ever reached. -/
theorem no_metadata_routing_raises_name_error :
    DHIS2Parser.get_variable_name envNoMetadata [] "XYZ".toList =
      .error (.nameError "string") := rfl

/-!
## C9: the resolver-cache invariant
-/

/-- §3's ResolvedVariable invariant: the display name is present iff the
lookup outcome is Resolved (`NO_ERRORS`). -/
def entryInv (e : VblEntry) : Prop :=
  e.displayName.isSome ↔ e.code = ValidationErrCode.NO_ERRORS

/-- Every entry of the `_vbl_names` cache satisfies `entryInv`. -/
def cacheInv (c : Cache) : Prop := ∀ p ∈ c, entryInv p.2

theorem lookupA_mem {β : Type} (c : List (Str × β)) (key : Str) (v : β)
    (h : lookupA c key = some v) : (key, v) ∈ c := by
  induction c with
  | nil => simp [lookupA] at h
  | cons p rest ih =>
    obtain ⟨k, w⟩ := p
    simp only [lookupA] at h
    split at h
    · next heq =>
      cases h
      subst heq
      exact List.mem_cons_self _ _
    · exact List.mem_cons_of_mem _ (ih h)

theorem cacheInv_append (c : Cache) (k : Str) (e : VblEntry)
    (hc : cacheInv c) (he : entryInv e) : cacheInv (c ++ [(k, e)]) := by
  intro p hp
  rcases List.mem_append.1 hp with h | h
  · exact hc p h
  · rw [List.mem_singleton] at h
    subst h
    exact he

theorem entryInv_absent (vc : ValidationErrCode) (vt : Str)
    (h : vc ≠ .NO_ERRORS) : entryInv ⟨none, vc, vt⟩ := by
  simp [entryInv, h]

theorem entryInv_resolved (dn vt : Str) : entryInv ⟨some dn, .NO_ERRORS, vt⟩ := by
  simp [entryInv]

theorem classify_variable_inv (cache : Cache) (vbl_id : Str)
    (fetched : Option RegRecord × ValidationErrCode × Option Str)
    (e : VblEntry) (cache' : Cache) (hinv : cacheInv cache)
    (h : DHIS2Parser.classify_variable cache vbl_id fetched = .ok (e, cache')) :
    cacheInv cache' ∧ entryInv e := by
  unfold DHIS2Parser.classify_variable at h
  split at h
  · -- deplural raised
    simp at h
  · -- deplural returned
    split at h
    · -- metadata fetch falsy
      next vbl_type _ _ _ =>
      simp only [Except.ok.injEq, Prod.mk.injEq] at h
      obtain ⟨he, hc⟩ := h
      subst he
      subst hc
      have hinvE : entryInv ⟨none,
          (if fetched.2.1 = ValidationErrCode.NO_ERRORS then ValidationErrCode.VBL_NO_METADATA
           else fetched.2.1), vbl_type⟩ := by
        split
        · exact entryInv_absent _ _ (by decide)
        · next hne => exact entryInv_absent _ _ hne
      exact ⟨cacheInv_append _ _ _ hinv hinvE, hinvE⟩
    · -- metadata record present
      split at h
      · -- display name key present
        next dn _ =>
        split at h
        · -- display name non-empty: Resolved
          simp only [Except.ok.injEq, Prod.mk.injEq] at h
          obtain ⟨he, hc⟩ := h
          subst he
          subst hc
          exact ⟨cacheInv_append _ _ _ hinv (entryInv_resolved _ _),
                 entryInv_resolved _ _⟩
        · -- empty display name: NoMetadata
          simp only [Except.ok.injEq, Prod.mk.injEq] at h
          obtain ⟨he, hc⟩ := h
          subst he
          subst hc
          exact ⟨cacheInv_append _ _ _ hinv (entryInv_absent _ _ (by decide)),
                 entryInv_absent _ _ (by decide)⟩
      · -- no display name key: NoMetadata
        simp only [Except.ok.injEq, Prod.mk.injEq] at h
        obtain ⟨he, hc⟩ := h
        subst he
        subst hc
        exact ⟨cacheInv_append _ _ _ hinv (entryInv_absent _ _ (by decide)),
               entryInv_absent _ _ (by decide)⟩

/-- C9: every ResolvedVariable ever created satisfies the invariant —
whenever `_get_variable_name` returns (it can also raise, in which case the
cache is untouched), the returned entry and every entry of the resulting
cache have a display name exactly when their outcome is `NO_ERRORS`
(Resolved). -/
theorem resolve_cache_displayName_iff_resolved
    (env : Env) (cache : Cache) (vbl_id : Str) (e : VblEntry) (cache' : Cache)
    (hinv : cacheInv cache)
    (h : DHIS2Parser.get_variable_name env cache vbl_id = .ok (e, cache')) :
    cacheInv cache' ∧ entryInv e := by
  unfold DHIS2Parser.get_variable_name at h
  split at h
  · -- cache hit
    next e0 heq =>
    simp only [Except.ok.injEq, Prod.mk.injEq] at h
    obtain ⟨he, hc⟩ := h
    subst he
    subst hc
    exact ⟨hinv, hinv _ (lookupA_mem _ _ _ heq)⟩
  · -- cache miss
    exact classify_variable_inv _ _ _ _ _ hinv h

/-- Witness for C9 at a concrete call: resolving the unknown id `X` against
an empty cache yields a NotInRegistry entry, and both the new cache and the
entry satisfy the invariant. -/
theorem resolve_cache_displayName_iff_resolved_witness :
    cacheInv [("X".toList, (⟨none, .VBL_NOT_IN_REG, []⟩ : VblEntry))] ∧
      entryInv ⟨none, .VBL_NOT_IN_REG, []⟩ :=
  resolve_cache_displayName_iff_resolved envEmpty [] "X".toList
    ⟨none, .VBL_NOT_IN_REG, []⟩ [("X".toList, ⟨none, .VBL_NOT_IN_REG, []⟩)]
    (fun p hp => absurd hp (List.not_mem_nil p)) rfl

/-!
## C8: the DenominatorFormulaDescMismatch finding
-/

/-- Every finding in the list carries at least one argument. -/
def vvArgsOk (vv : List (ValidationErrCode × List Str)) : Prop := ∀ q ∈ vv, q.2 ≠ []

theorem mem_ite_singleton {α : Type} (p : Prop) [Decidable p] (a b : α) :
    (a ∈ if p then [b] else []) ↔ p ∧ a = b := by
  split
  · next hp => simp [hp]
  · next hp => simp [hp]

theorem addVblFinding_args (quantity_type vid vtype : Str) (vcode : ValidationErrCode)
    (st : PSt) (h : vvArgsOk st.vv) :
    vvArgsOk (addVblFinding quantity_type vid vtype vcode st).vv := by
  unfold addVblFinding
  split
  · exact h
  · intro q hq
    simp only at hq
    rcases List.mem_append.1 hq with hq | hq
    · exact h q hq
    · split at hq
      · rw [List.mem_singleton] at hq
        subst hq
        split <;> simp
      · exact absurd hq (List.not_mem_nil q)

theorem resolveAndRecord_args (env : Env) (quantity_type vid : Str) (st st' : PSt)
    (h : resolveAndRecord env quantity_type vid st = .ok st') (hvv : vvArgsOk st.vv) :
    vvArgsOk st'.vv := by
  unfold resolveAndRecord at h
  split at h
  · simp at h
  · simp only [Except.ok.injEq] at h
    subst h
    exact addVblFinding_args _ _ _ _ _ hvv

theorem processToken_args (env : Env) (quantity_type : Str) (number : Option Nat)
    (st st' : PSt) (t : Token)
    (h : processToken env quantity_type number st t = .ok st') (hvv : vvArgsOk st.vv) :
    vvArgsOk st'.vv := by
  cases t with
  | num txt =>
    simp only [processToken, Except.ok.injEq] at h
    subst h
    unfold numOperStep
    split <;> exact hvv
  | oper c =>
    simp only [processToken, Except.ok.injEq] at h
    subst h
    unfold numOperStep
    split <;> exact hvv
  | vbl g2 g3 g4 =>
    simp only [processToken] at h
    split at h
    · simp at h
    · next ent cache' _ =>
      have h1 : vvArgsOk (addVblFinding quantity_type g2 ent.vblType ent.code
          { st with calcText := st.calcText ++ ' ' :: pyOr ent.displayName,
                    cache := cache' }).vv :=
        addVblFinding_args _ _ _ _ _ hvv
      split at h
      · simp at h
      · next st2 hcoc =>
        -- the coc stage succeeded with st2; show its vv is fine, then the aoc stage
        have h2 : vvArgsOk st2.vv := by
          split at hcoc
          · split at hcoc
            · simp only [Except.ok.injEq] at hcoc
              subst hcoc
              exact h1
            · exact resolveAndRecord_args _ _ _ _ _ hcoc h1
          · simp only [Except.ok.injEq] at hcoc
            subst hcoc
            exact h1
        split at h
        · exact resolveAndRecord_args _ _ _ _ _ h h2
        · simp only [Except.ok.injEq] at h
          subst h
          exact h2

theorem parseTokens_args (env : Env) (quantity_type : Str) (number : Option Nat)
    (ts : List Token) (st st' : PSt)
    (h : parseTokens env quantity_type number ts st = .ok st') (hvv : vvArgsOk st.vv) :
    vvArgsOk st'.vv := by
  induction ts generalizing st with
  | nil =>
    simp only [parseTokens, Except.ok.injEq] at h
    subst h
    exact hvv
  | cons t ts ih =>
    simp only [parseTokens] at h
    split at h
    · simp at h
    · next st1 hstep => exact ih st1 h (processToken_args _ _ _ _ _ _ hstep hvv)

/-- Every finding `_parse_formula` returns has a non-empty argument list
(variable findings carry 2-3 arguments, the number finding carries 2). -/
theorem parse_formula_args (env : Env) (cache : Cache) (formula : Str)
    (number : Option Nat) (quantity_type : Str) (c : Str)
    (vv : List (ValidationErrCode × List Str)) (k : Cache)
    (h : DHIS2Parser.parse_formula env cache formula number quantity_type =
      .ok (c, vv, k)) : vvArgsOk vv := by
  unfold DHIS2Parser.parse_formula at h
  split at h
  · simp at h
  · next st hrun =>
    have hst : vvArgsOk st.vv :=
      parseTokens_args _ _ _ _ _ _ hrun (fun q hq => absurd hq (List.not_mem_nil q))
    simp only [Except.ok.injEq, Prod.mk.injEq] at h
    obtain ⟨-, hvv, -⟩ := h
    subst hvv
    split
    · exact hst
    · intro q hq
      rcases List.mem_append.1 hq with hq | hq
      · exact hst q hq
      · rw [List.mem_singleton] at hq
        subst hq
        simp

/-- C8: for every indicator record found in the registry whose validation
runs to completion, the DenominatorFormulaDescMismatch finding is present in
the produced finding list exactly when "denominator formula textually equals
the literal '1'" XOR "the (defaulted) denominator description textually
equals '1'" — the defaulted description is the produced record's
`denominatorDescription` field, which is `"1"` when the registry field is
missing or empty. -/
theorem denominator_mismatch_iff_xor
    (env : Env) (cache : Cache) (iid : Str) (j : RegRecord) (v : Values) (cache' : Cache)
    (hreg : env.registry.records indicatorsStr iid = some j)
    (hok : DHIS2Parser.get_indicator_description env cache iid = .ok (v, cache')) :
    ((ValidationErrCode.DENOM_FORMULA_NO_MATCH, ([] : List Str)) ∈ v.validationValues ↔
      ¬((j.denominator.getD qmarks = oneStr) ↔ (v.denominatorDescription = oneStr))) := by
  unfold DHIS2Parser.get_indicator_description at hok
  rw [hreg] at hok
  simp only at hok
  split at hok
  · simp at hok
  split at hok
  · simp at hok
  split at hok
  · simp at hok
  split at hok
  · simp at hok
  next numer_calc numer_vv cache1 hparseN =>
  split at hok
  · simp at hok
  next denom_calc denom_vv cache2 hparseD =>
  have hargsN := parse_formula_args _ _ _ _ _ _ _ _ hparseN
  have hargsD := parse_formula_args _ _ _ _ _ _ _ _ hparseD
  simp only [Except.ok.injEq, Prod.mk.injEq] at hok
  obtain ⟨hv, -⟩ := hok
  subst hv
  have hN : (ValidationErrCode.DENOM_FORMULA_NO_MATCH, ([] : List Str)) ∉ numer_vv :=
    fun h => hargsN _ h rfl
  have hD : (ValidationErrCode.DENOM_FORMULA_NO_MATCH, ([] : List Str)) ∉ denom_vv :=
    fun h => hargsD _ h rfl
  simp [mem_ite_singleton, hN, hD]

/-- The record `I8`'s validation output. -/
def vMismatch : Values :=
  match DHIS2Parser.get_indicator_description envMismatch [] "I8".toList with
  | .ok (v, _) => v
  | .error _ => {}

/-- Witness for C8 at the concrete record `jMismatch` (denominator formula
"1", denominator description "2"): validation completes and the theorem
instantiates with both hypotheses discharged by computation. -/
theorem denominator_mismatch_iff_xor_witness :
    ((ValidationErrCode.DENOM_FORMULA_NO_MATCH, ([] : List Str)) ∈
        vMismatch.validationValues ↔
      ¬((jMismatch.denominator.getD qmarks = oneStr) ↔
        (vMismatch.denominatorDescription = oneStr))) :=
  denominator_mismatch_iff_xor envMismatch [] "I8".toList jMismatch vMismatch [] rfl rfl

/-!
## Supporting fact for C1: no token can ever mark the expected number as seen
-/

/-- A token's text can never pass the `isdigit()` test of source line 360:
number tokens always contain a dot, operator tokens are single non-digits. -/
def tokenCantMarkSeen (t : Token) : Prop :=
  match t with
  | .num txt => pyIsDigit txt = false
  | .oper c => pyIsDigit [c] = false
  | .vbl _ _ _ => True

theorem matchNum_not_digit (s : Str) (txt : Str) (k : Nat)
    (h : matchNum s = some (txt, k)) : pyIsDigit txt = false := by
  unfold matchNum at h
  simp only at h
  split at h
  · simp at h
  · split at h
    · split at h
      · simp at h
      · simp only [Option.some.injEq, Prod.mk.injEq] at h
        obtain ⟨ht, -⟩ := h
        subst ht
        simp [pyIsDigit]
    · simp at h

theorem scanTokensF_cantMarkSeen (fuel : Nat) :
    ∀ (s : Str) (t : Token), t ∈ scanTokensF fuel s → tokenCantMarkSeen t := by
  induction fuel with
  | zero => intro s t ht; simp [scanTokensF] at ht
  | succ fuel ih =>
    intro s t ht
    unfold scanTokensF at ht
    split at ht
    · exact absurd ht (List.not_mem_nil t)
    · split at ht
      · rcases List.mem_cons.1 ht with rfl | ht
        · trivial
        · exact ih _ _ ht
      · split at ht
        · next hc =>
          rcases List.mem_cons.1 ht with rfl | ht
          · have : ¬ Char.isDigit ‹Char› := by
              rename_i c' _ _
              fin_cases hc <;> decide
            simp [tokenCantMarkSeen, pyIsDigit, this]
          · exact ih _ _ ht
        · split at ht
          · next txt k hm =>
            rcases List.mem_cons.1 ht with rfl | ht
            · exact matchNum_not_digit _ _ _ hm
            · exact ih _ _ ht
          · exact ih _ _ ht

theorem addVblFinding_number_seen (quantity_type vid vtype : Str)
    (vcode : ValidationErrCode) (st : PSt) :
    (addVblFinding quantity_type vid vtype vcode st).number_seen = st.number_seen := by
  unfold addVblFinding
  split <;> rfl

theorem resolveAndRecord_number_seen (env : Env) (quantity_type vid : Str) (st st' : PSt)
    (h : resolveAndRecord env quantity_type vid st = .ok st') :
    st'.number_seen = st.number_seen := by
  unfold resolveAndRecord at h
  split at h
  · simp at h
  · simp only [Except.ok.injEq] at h
    subst h
    rw [addVblFinding_number_seen]

theorem processToken_number_seen (env : Env) (quantity_type : Str) (number : Option Nat)
    (st st' : PSt) (t : Token) (hcant : tokenCantMarkSeen t)
    (h : processToken env quantity_type number st t = .ok st') :
    st'.number_seen = st.number_seen := by
  cases t with
  | num txt =>
    simp only [processToken, Except.ok.injEq] at h
    subst h
    unfold numOperStep
    split
    · next hcond => rw [hcant] at hcond; exact absurd hcond.1 (by simp)
    · rfl
  | oper c =>
    simp only [processToken, Except.ok.injEq] at h
    subst h
    unfold numOperStep
    split
    · next hcond => rw [hcant] at hcond; exact absurd hcond.1 (by simp)
    · rfl
  | vbl g2 g3 g4 =>
    simp only [processToken] at h
    split at h
    · simp at h
    · next ent cache' _ =>
      split at h
      · simp at h
      · next st2 hcoc =>
        have h2 : st2.number_seen = st.number_seen := by
          split at hcoc
          · split at hcoc
            · simp only [Except.ok.injEq] at hcoc
              subst hcoc
              rw [addVblFinding_number_seen]
            · rw [resolveAndRecord_number_seen _ _ _ _ _ hcoc,
                  addVblFinding_number_seen]
          · simp only [Except.ok.injEq] at hcoc
            subst hcoc
            rw [addVblFinding_number_seen]
        split at h
        · rw [resolveAndRecord_number_seen _ _ _ _ _ h, h2]
        · simp only [Except.ok.injEq] at h
          subst h
          exact h2

theorem parseTokens_number_seen (env : Env) (quantity_type : Str) (number : Option Nat)
    (ts : List Token) (st st' : PSt) (hcant : ∀ t ∈ ts, tokenCantMarkSeen t)
    (h : parseTokens env quantity_type number ts st = .ok st') :
    st'.number_seen = st.number_seen := by
  induction ts generalizing st with
  | nil =>
    simp only [parseTokens, Except.ok.injEq] at h
    subst h
    rfl
  | cons t ts ih =>
    simp only [parseTokens] at h
    split at h
    · simp at h
    · next st1 hstep =>
      rw [ih st1 (fun u hu => hcant u (List.mem_cons_of_mem t hu)) h,
          processToken_number_seen _ _ _ _ _ _ (hcant t (List.mem_cons_self t ts)) hstep]

/-- Regardless of the formula's content, a non-`None` expected number is
never marked seen — number tokens always contain a decimal point and fail
`isdigit()` — so every completing evaluation appends the
FormulaNumberMissing finding. -/
theorem parse_formula_always_flags_number (env : Env) (cache : Cache) (formula : Str)
    (n : Nat) (quantity_type : Str) (c : Str)
    (vv : List (ValidationErrCode × List Str)) (k : Cache)
    (h : DHIS2Parser.parse_formula env cache formula (some n) quantity_type =
      .ok (c, vv, k)) :
    (ValidationErrCode.FORMULA_NUMBER_MISSING, [quantity_type, natStr n]) ∈ vv := by
  unfold DHIS2Parser.parse_formula at h
  split at h
  · simp at h
  · next st hrun =>
    have hseen : st.number_seen = false :=
      parseTokens_number_seen _ _ _ _ _ _
        (fun t ht => scanTokensF_cantMarkSeen _ _ _ ht) hrun
    simp only [Except.ok.injEq, Prod.mk.injEq] at h
    obtain ⟨-, hvv, -⟩ := h
    subst hvv
    rw [hseen]
    simp [numToStr]
